import Mathlib

/-!
# Verification of the consul agent auto-configuration core and keyring helpers

This file gives a shallow embedding of two parts of the repository:

* `agent/keyring.go`: the pure helpers `ParseRelayFactor` and
  `ValidateLocalOnly`, translated directly from the Go source.

* the `autoconf` package: only its test file is present in the repository
  snapshot, so the operational definitions (`New`, `InitialConfiguration`,
  the control loop with `Start`/`Stop`/`Done`, the cache-watch driver and
  the fallback path) are modelled from the specification, faithful to its
  words; each such definition carries a doc comment starting
  `Modelled from the spec:`.

Machine integers are modelled as `Int`/`Nat` with explicit `% 256` where a
Go conversion to `uint8` occurs.  Go `error` results become `Except String`
or `Option String`; Go durations (`time.Duration`, int64 nanoseconds)
become `Int` nanoseconds.
-/

namespace Keyring

/-- `ParseRelayFactor` from `agent/keyring.go`: validates and converts the
given relay factor to `uint8`.  Go `int` is modelled as `Int`; the Go
conversion `uint8(n)` is `n % 256` (for the in-range values accepted here
this is the identity). -/
def ParseRelayFactor (n : Int) : Except String Int :=
  if n < 0 ∨ n > 5 then
    Except.error "Relay factor must be in range: [0, 5]"
  else
    Except.ok (n % 256)

/-- `ValidateLocalOnly` from `agent/keyring.go`: validates the local-only
flag, requiring that it only be set for list requests.  A `some` result is
the Go non-nil error. -/
def ValidateLocalOnly (l : Bool) (list : Bool) : Option String :=
  if l && !list then
    some "local-only can only be set for list requests"
  else
    none

end Keyring

namespace AutoConf

/-- One nanosecond, the unit of Go `time.Duration`. -/
def nanosecond : Int := 1

/-- One second in nanoseconds, as Go `time.Second`. -/
def second : Int := 1000000000

/-- One minute in nanoseconds, as Go `time.Minute`. -/
def minute : Int := 60 * second

/-- A concrete transport address (host/IP and port), standing for the Go
`net.TCPAddr` the bootstrap client dials. -/
structure Addr where
  host : String
  port : Nat
deriving DecidableEq, Repr

/-- The indexed root set of a bootstrap response (§3): active root id,
trust domain, root certificate PEMs and a monotonic index. -/
structure CARoots where
  activeRootID : String
  trustDomain : String
  rootPEMs : List String
  index : Nat
deriving DecidableEq, Repr

/-- The agent's leaf certificate (§3): PEM, in-memory private key, the end
of the validity window (`ValidBefore`, nanoseconds since epoch) and the
cache index. -/
structure Certificate where
  certPEM : String
  keyPEM : String
  validBefore : Int
  modifyIndex : Nat
deriving DecidableEq, Repr

/-- The recognized runtime-configuration fields carried inside a bootstrap
response (§3): primary datacenter and the `VerifyServerHostname` TLS
policy flag. -/
structure RespConfig where
  primaryDatacenter : String
  verifyServerHostname : Bool
deriving DecidableEq, Repr

/-- The bootstrap response (§3): config fields, indexed roots, the leaf
certificate and extra CA certificates. -/
structure AutoConfigResponse where
  config : RespConfig
  caRoots : CARoots
  certificate : Certificate
  extraCACertificates : List String
deriving DecidableEq, Repr

/-- The assembled runtime configuration, restricted to the fields the
scenarios observe. -/
structure RuntimeConfig where
  primaryDatacenter : String
  verifyServerHostname : Bool
deriving DecidableEq, Repr

/-- Modelled from the spec: the `Config` passed to `New` (§6).  The
implementation file of the `autoconf` package is absent from the snapshot,
so collaborator references (DirectRPC, ConfigLoader, Cache,
TLSConfigurator, TokenStore, ServerProvider) are modelled by presence
flags; the retry `Waiter` by an optional value; and the tunables
`FallbackRetry`/`FallbackLeeway` by durations whose Go zero value `0`
means "unset, apply the default". -/
structure Config where
  directRPC : Bool
  loader : Bool
  cache : Bool
  tlsConfigurator : Bool
  tokens : Bool
  serverProvider : Bool
  waiter : Option Nat
  fallbackRetry : Int
  fallbackLeeway : Int
deriving DecidableEq, Repr

/-- Modelled from the spec: the constructed core, holding its (defaulted)
configuration. -/
structure AutoConfig where
  acConfig : Config
deriving DecidableEq, Repr

/-- Modelled from the spec: the default retry backoff waiter installed by
`New` when none is supplied. -/
def defaultWaiter : Nat := 1

/-- Modelled from the spec: `New(Config)` (§7, construction-time
`ConfigError`).  Each required collaborator — direct RPC delegate, config
loader, cache, TLS configurator, token store — is checked for presence;
the error strings are the ones the test `TestNew` requires.  On success
the tunables `FallbackRetry` (default one minute), `FallbackLeeway`
(default ten seconds) and the `Waiter` are defaulted when unset. -/
def New (cfg : Config) : Except String AutoConfig :=
  if !cfg.directRPC then Except.error "must provide a direct RPC delegate"
  else if !cfg.loader then Except.error "must provide a config loader"
  else if !cfg.cache then Except.error "must provide a cache"
  else if !cfg.tlsConfigurator then Except.error "must provide a TLS configurator"
  else if !cfg.tokens then Except.error "must provide a token store"
  else Except.ok
    { acConfig :=
        { cfg with
          fallbackRetry := if cfg.fallbackRetry = 0 then minute else cfg.fallbackRetry
          fallbackLeeway := if cfg.fallbackLeeway = 0 then 10 * second else cfg.fallbackLeeway
          waiter := some (cfg.waiter.getD defaultWaiter) } }

/-- A fully-populated collaborator configuration with unset tunables, as
built by `TestNew`'s base case. -/
def fullConfig : Config :=
  { directRPC := true, loader := true, cache := true, tlsConfigurator := true
    tokens := true, serverProvider := true, waiter := none
    fallbackRetry := 0, fallbackLeeway := 0 }

/-- Modelled from the spec (§4.3, step 2): one pass of the bootstrap
client walks the resolved address sequence in declared order, issuing one
unary `AutoConfig.InitialConfiguration` RPC per address; a per-attempt
error moves on to the next address and the pass stops at the first
success.  `rpc` gives each attempt's outcome (`none` is a failure).  The
pass returns the list of addresses actually attempted, in order, together
with the first successful response if any. -/
def runPass (rpc : Addr → Option AutoConfigResponse) :
    List Addr → List Addr × Option AutoConfigResponse
  | [] => ([], none)
  | a :: rest =>
    match rpc a with
    | some r => ([a], some r)
    | none =>
      let (attempted, res) := runPass rpc rest
      (a :: attempted, res)

/-- Modelled from the spec (§4.3, steps 1–4): the outer retry loop runs
pass after pass until the context is cancelled or an attempt succeeds;
exhausting a pass waits (backoff elided from the model) and repeats.  The
context is modelled by the fuel: cancellation fires when the fuel runs
out, at a pass boundary.  `rpc` maps the pass number and the address to
that attempt's outcome, so a single address may fail on one pass and
succeed on a later one.  Returns the complete attempt trace and, on
success, the zero-based index of the succeeding pass with the response;
`none` in the second component is the context error. -/
def bootstrapLoop (rpc : Nat → Addr → Option AutoConfigResponse)
    (addrs : List Addr) :
    Nat → Nat → List Addr × Option (Nat × AutoConfigResponse)
  | 0, _ => ([], none)
  | fuel + 1, pass =>
    let (attempted, res) := runPass (rpc pass) addrs
    match res with
    | some r => (attempted, some (pass, r))
    | none =>
      let (rest, out) := bootstrapLoop rpc addrs fuel (pass + 1)
      (attempted ++ rest, out)

/-- Modelled from the spec (§4.3): the bootstrap client entry point, with
`deadline` the number of passes the context allows before cancellation. -/
def bootstrap (deadline : Nat) (rpc : Nat → Addr → Option AutoConfigResponse)
    (addrs : List Addr) : List Addr × Option (Nat × AutoConfigResponse) :=
  bootstrapLoop rpc addrs deadline 0

/-- Modelled from the spec (§4.4): folding a bootstrap response into the
runtime configuration; the scenarios observe the primary datacenter and
the `VerifyServerHostname` flag, both taken from the response's config
fields. -/
def assemble (resp : AutoConfigResponse) : RuntimeConfig :=
  { primaryDatacenter := resp.config.primaryDatacenter
    verifyServerHostname := resp.config.verifyServerHostname }

/-- The error `InitialConfiguration` surfaces when the context deadline
passes before any attempt succeeds. -/
inductive ICError
  | deadlineExceeded
deriving DecidableEq, Repr

/-- The user-visible message of an `InitialConfiguration` error, as Go's
`context.DeadlineExceeded.Error()`. -/
def ICError.message : ICError → String
  | ICError.deadlineExceeded => "context deadline exceeded"

/-- Modelled from the spec: the environment of one `InitialConfiguration`
call — the master switch `auto_config.enabled`, the configuration the
loader alone produces, the declared `server_addresses`, the context
deadline and the RPC outcomes. -/
structure ICEnv where
  enabled : Bool
  loaderConfig : RuntimeConfig
  serverAddresses : List Addr
  deadline : Nat
  rpc : Nat → Addr → Option AutoConfigResponse

/-- The observable outcome of one `InitialConfiguration` call: the
returned configuration or error, the content of the persisted
`auto-config.json` afterwards (`none` when the file does not exist) and
the addresses of every RPC issued, in order. -/
structure ICOutcome where
  result : Except ICError RuntimeConfig
  file : Option AutoConfigResponse
  rpcTrace : List Addr

/-- Modelled from the spec: `InitialConfiguration` (§4.3, §6, §8).  When
`auto_config.enabled` is false the core is a no-op: the loader's
configuration is returned, no RPC is issued and persistence is not
touched.  Otherwise a valid persisted response is restored without any
RPC; absent that, the bootstrap client runs and on success the response
is persisted and assembled, while cancellation surfaces the context error
with no response and no persistence. -/
def initialConfiguration (env : ICEnv) (file : Option AutoConfigResponse) :
    ICOutcome :=
  if !env.enabled then
    { result := Except.ok env.loaderConfig, file := file, rpcTrace := [] }
  else
    match file with
    | some r => { result := Except.ok (assemble r), file := file, rpcTrace := [] }
    | none =>
      let (trace, out) := bootstrap env.deadline env.rpc env.serverAddresses
      match out with
      | some (_, r) =>
        { result := Except.ok (assemble r), file := some r, rpcTrace := trace }
      | none =>
        { result := Except.error ICError.deadlineExceeded, file := none
          rpcTrace := trace }

/-- The declared address list of the retries scenario. -/
def retryAddrs : List Addr :=
  [⟨"198.18.0.1", 8300⟩, ⟨"198.18.0.2", 8398⟩, ⟨"198.18.0.3", 8399⟩,
    ⟨"127.0.0.1", 1234⟩]

/-- A sample root set used by the concrete scenarios. -/
def sampleRoots : CARoots :=
  { activeRootID := "root-1", trustDomain := "11111111-2222-3333-4444-555555555555.consul"
    rootPEMs := ["root-pem-1"], index := 1 }

/-- A sample leaf certificate used by the concrete scenarios. -/
def sampleCert : Certificate :=
  { certPEM := "cert-pem-1", keyPEM := "key-pem-1"
    validBefore := 1000 * second, modifyIndex := 2 }

/-- The bootstrap response the mocked server returns in the concrete
scenarios: `PrimaryDatacenter="primary"`, `VerifyServerHostname=true`. -/
def sampleResponse : AutoConfigResponse :=
  { config := { primaryDatacenter := "primary", verifyServerHostname := true }
    caRoots := sampleRoots, certificate := sampleCert
    extraCACertificates := ["extra-pem-1"] }

/-- The RPC script of the retries scenario: the three `198.18.0.*`
addresses fail on every attempt; `127.0.0.1:1234` fails on the first pass
and succeeds from the second pass on. -/
def retryScript (pass : Nat) (a : Addr) : Option AutoConfigResponse :=
  if a = ⟨"127.0.0.1", 1234⟩ ∧ 1 ≤ pass then some sampleResponse else none

/-- The environment of the retries scenario. -/
def retryEnv : ICEnv :=
  { enabled := true, loaderConfig := { primaryDatacenter := "dc1", verifyServerHostname := false }
    serverAddresses := retryAddrs, deadline := 10, rpc := retryScript }

/-- An environment whose single configured address is unreachable, with a
context deadline, as in the cancellation scenario. -/
def cancelEnv : ICEnv :=
  { enabled := true
    loaderConfig := { primaryDatacenter := "primary", verifyServerHostname := false }
    serverAddresses := [⟨"127.0.0.1", 8300⟩], deadline := 3
    rpc := fun _ _ => none }

/-- An environment with auto-config disabled, as in the disabled
scenario. -/
def disabledEnv : ICEnv :=
  { enabled := false
    loaderConfig := { primaryDatacenter := "primary", verifyServerHostname := false }
    serverAddresses := [], deadline := 0
    rpc := fun _ _ => none }

/-- A cache subscription as the control loop observes it: the epoch id of
its child context, the request token it carries (empty for the
token-independent roots topic) and whether its child context has been
cancelled. -/
structure Subscription where
  id : Nat
  token : String
  cancelled : Bool
deriving DecidableEq, Repr

/-- Modelled from the spec (§4.6): the internal tunables and the declared
address list the running loop consults. -/
structure LoopEnv where
  fallbackRetry : Int
  fallbackLeeway : Int
  serverAddresses : List Addr
deriving Repr

/-- Modelled from the spec (§4.5, §4.6): the state of the control loop
together with its cache-watch driver.  `doneClosed` models the `Done()`
channel (`true` when closed); `rootsSub`/`leafSub` are the at-most-one
active subscriptions; `cancelledSubs` records every subscription whose
child context has been cancelled; `nextID` supplies fresh child-context
epochs; `lastTokenRead` is the value `AgentToken()` returned at the most
recent leaf-subscription setup; `curResponse` is the last installed
bootstrap response; `timer` the armed fallback instant. -/
structure LoopState where
  running : Bool
  doneClosed : Bool
  rootsSub : Option Subscription
  leafSub : Option Subscription
  cancelledSubs : List Subscription
  nextID : Nat
  lastTokenRead : String
  curResponse : Option AutoConfigResponse
  timer : Option Int
deriving DecidableEq, Repr

/-- Modelled from the spec (§4.6): the initial `Stopped` state; the done
channel of a stopped loop is closed. -/
def initState : LoopState :=
  { running := false, doneClosed := true, rootsSub := none, leafSub := none
    cancelledSubs := [], nextID := 0, lastTokenRead := ""
    curResponse := none, timer := none }

/-- Modelled from the spec (§4.6): the fallback timer arming instant
`min(ValidBefore − leeway, now + fallbackRetry)`, with `certNotAfter` the
TLS configurator's reported `AutoEncryptCertNotAfter`. -/
def fallbackTimer (env : LoopEnv) (now certNotAfter : Int) : Int :=
  min (certNotAfter - env.fallbackLeeway) (now + env.fallbackRetry)

/-- Modelled from the spec: `InitialConfiguration` installs the response
it returns before the loop starts, which is where `curResponse` comes
from on a stopped core. -/
def loadResponse (r : AutoConfigResponse) (s : LoopState) : LoopState :=
  if s.running then s else { s with curResponse := some r }

/-- Modelled from the spec (§4.6 Start, §4.5 Start): `Stopped → Running`,
failing when already `Running`.  Opens the done channel, creates one
roots subscription (token-independent) and one leaf subscription whose
request carries `agentToken`, the value the token store returned at
setup, each under a fresh child context, and arms the fallback timer from
the reported `CertNotAfter`. -/
def start (env : LoopEnv) (agentToken : String) (now certNotAfter : Int)
    (s : LoopState) : Except String LoopState :=
  if s.running then Except.error "AutoConfig is already running"
  else Except.ok
    { s with
      running := true
      doneClosed := false
      rootsSub := some { id := s.nextID, token := "", cancelled := false }
      leafSub := some { id := s.nextID + 1, token := agentToken, cancelled := false }
      nextID := s.nextID + 2
      lastTokenRead := agentToken
      timer := some (fallbackTimer env now certNotAfter) }

/-- The active subscriptions of a state, their child contexts marked
cancelled, as parent-context cancellation leaves them. -/
def cancelActive (s : LoopState) : List Subscription :=
  (s.rootsSub.toList ++ s.leafSub.toList).map fun sub => { sub with cancelled := true }

/-- Modelled from the spec (§4.6 Stop): from `Running`, cancels the
internal context — and with it both subscriptions' child contexts — waits
for the loop to exit, closes the done channel and returns `true`; from
`Stopped` it returns `false` with no side effects. -/
def stop (s : LoopState) : Bool × LoopState :=
  if s.running then
    (true,
      { s with
        running := false
        doneClosed := true
        rootsSub := none
        leafSub := none
        cancelledSubs := cancelActive s ++ s.cancelledSubs
        timer := none })
  else (false, s)

/-- Modelled from the spec: cancellation of the parent context supplied
to `Start` shuts the loop down exactly as `Stop` does. -/
def parentCancelled (s : LoopState) : LoopState :=
  (stop s).2

/-- Modelled from the spec (§4.5): on the agent-token change
notification, the driver cancels the leaf subscription's child context,
re-reads the token from the token store (`newToken` is that snapshot) and
starts exactly one new leaf subscription carrying it; the roots
subscription is token-independent and is not restarted. -/
def handleTokenChanged (newToken : String) (s : LoopState) : LoopState :=
  if s.running then
    { s with
      leafSub := some { id := s.nextID, token := newToken, cancelled := false }
      nextID := s.nextID + 1
      lastTokenRead := newToken
      cancelledSubs :=
        (s.leafSub.toList.map fun sub => { sub with cancelled := true }) ++
          s.cancelledSubs }
  else s

/-- An observable action of the running control loop, in the order the
loop performs them. -/
inductive Action
  | updateTLS (extras : List String) (roots : List String) (leafPEM : String)
      (verify : Bool)
  | persist (resp : AutoConfigResponse)
  | rpcTo (a : Addr)
  | restartWatches
  | armTimer (t : Int)
deriving DecidableEq, Repr

/-- Modelled from the spec (§4.4 Install): the single `UpdateAutoTLS`
call pushing the extra anchors, the root PEMs, the leaf and the
`VerifyServerHostname` policy together, so observers never see a
partially updated identity. -/
def installAction (resp : AutoConfigResponse) : Action :=
  Action.updateTLS resp.extraCACertificates resp.caRoots.rootPEMs
    resp.certificate.certPEM resp.config.verifyServerHostname

/-- Modelled from the spec (§4.6, case 2): a leaf update replaces the
certificate of the current response, reinstalls the full triple via the
assembler, persists, and only then recomputes the fallback timer from
the new certificate's validity, so a concurrent expiry check never
observes stale material. -/
def handleLeafUpdate (env : LoopEnv) (now : Int) (cert : Certificate)
    (s : LoopState) : LoopState × List Action :=
  if s.running then
    match s.curResponse with
    | none => (s, [])
    | some resp =>
      let resp2 := { resp with certificate := cert }
      ({ s with
          curResponse := some resp2
          timer := some (fallbackTimer env now cert.validBefore) },
        [installAction resp2, Action.persist resp2,
          Action.armTimer (fallbackTimer env now cert.validBefore)])
  else (s, [])

/-- Modelled from the spec (§4.6, case 1): a roots update replaces the
roots of the current response, reinstalls, persists and recomputes the
timer from the unchanged leaf's validity. -/
def handleRootsUpdate (env : LoopEnv) (now : Int) (roots : CARoots)
    (s : LoopState) : LoopState × List Action :=
  if s.running then
    match s.curResponse with
    | none => (s, [])
    | some resp =>
      let resp2 := { resp with caRoots := roots }
      ({ s with
          curResponse := some resp2
          timer := some (fallbackTimer env now resp.certificate.validBefore) },
        [installAction resp2, Action.persist resp2,
          Action.armTimer (fallbackTimer env now resp.certificate.validBefore)])
  else (s, [])

/-- Modelled from the spec (§4.3 fallback variant): the address list the
fallback bootstrap walks — the single `FindLocalServer` hint address when
present, otherwise the configured address list. -/
def hintAddrs (env : LoopEnv) (hint : Option Addr) : List Addr :=
  match hint with
  | some a => [a]
  | none => env.serverAddresses

/-- Modelled from the spec (§4.6 case 4, §4.3 fallback variant): on a
fallback tick with the TLS configurator reporting the certificate
expired, the loop re-bootstraps over `hintAddrs`, one attempt per address
for this tick (`rpc` gives the outcomes).  On the first success it
reinstalls the fresh triple, persists, restarts the cache watches —
re-reading the agent token (`tok`) because the token-keyed leaf key may
be stale — and re-arms the timer from the new certificate's
`ValidBefore`; on failure it re-arms at `retryAt` with backoff.  When the
certificate is not expired nothing happens. -/
def handleFallback (env : LoopEnv) (now : Int) (expired : Bool)
    (hint : Option Addr) (rpc : Addr → Option AutoConfigResponse)
    (retryAt : Int) (tok : String) (s : LoopState) :
    LoopState × List Action :=
  if s.running && expired then
    match runPass rpc (hintAddrs env hint) with
    | (attempted, some resp) =>
      ({ s with
          curResponse := some resp
          rootsSub := some { id := s.nextID, token := "", cancelled := false }
          leafSub := some { id := s.nextID + 1, token := tok, cancelled := false }
          nextID := s.nextID + 2
          lastTokenRead := tok
          cancelledSubs := cancelActive s ++ s.cancelledSubs
          timer := some (fallbackTimer env now resp.certificate.validBefore) },
        attempted.map Action.rpcTo ++
          [installAction resp, Action.persist resp, Action.restartWatches,
            Action.armTimer (fallbackTimer env now resp.certificate.validBefore)])
    | (attempted, none) =>
      ({ s with timer := some retryAt },
        attempted.map Action.rpcTo ++ [Action.armTimer retryAt])
  else (s, [])

/-- The states the control loop can reach from the initial `Stopped`
state through any sequence of operations and events, with arbitrary
environments, token snapshots, clocks and RPC outcomes. -/
inductive Reachable : LoopState → Prop
  | init : Reachable initState
  | loadResponse (r : AutoConfigResponse) (s : LoopState) :
      Reachable s → Reachable (loadResponse r s)
  | start (env : LoopEnv) (tok : String) (now cna : Int) (s s' : LoopState) :
      Reachable s → start env tok now cna s = Except.ok s' → Reachable s'
  | stop (s : LoopState) : Reachable s → Reachable (stop s).2
  | parentCancelled (s : LoopState) :
      Reachable s → Reachable (parentCancelled s)
  | tokenChanged (tok : String) (s : LoopState) :
      Reachable s → Reachable (handleTokenChanged tok s)
  | leafUpdate (env : LoopEnv) (now : Int) (cert : Certificate) (s : LoopState) :
      Reachable s → Reachable (handleLeafUpdate env now cert s).1
  | rootsUpdate (env : LoopEnv) (now : Int) (roots : CARoots) (s : LoopState) :
      Reachable s → Reachable (handleRootsUpdate env now roots s).1
  | fallback (env : LoopEnv) (now : Int) (expired : Bool) (hint : Option Addr)
      (rpc : Addr → Option AutoConfigResponse) (retryAt : Int) (tok : String)
      (s : LoopState) :
      Reachable s → Reachable (handleFallback env now expired hint rpc retryAt tok s).1

/-- The tunables and address list used by the concrete loop scenarios. -/
def sampleLoopEnv : LoopEnv :=
  { fallbackRetry := minute, fallbackLeeway := 10 * second
    serverAddresses := retryAddrs }

/-- The state `Start` produces from the initial state with agent token
`"a5de"`, clock `0` and a reported `CertNotAfter` of `1000` seconds. -/
def sampleStarted : LoopState :=
  { running := true, doneClosed := false
    rootsSub := some { id := 0, token := "", cancelled := false }
    leafSub := some { id := 1, token := "a5de", cancelled := false }
    cancelledSubs := [], nextID := 2, lastTokenRead := "a5de"
    curResponse := none
    timer := some (fallbackTimer sampleLoopEnv 0 (1000 * second)) }

/-- A running state with the sample response installed, as after
`InitialConfiguration` and `Start`. -/
def fallbackState : LoopState :=
  { sampleStarted with curResponse := some sampleResponse }

/-- A leaf certificate whose validity window has already passed. -/
def expiredCert : Certificate :=
  { certPEM := "cert-pem-2", keyPEM := "key-pem-2"
    validBefore := -1, modifyIndex := 100 }

/-- The fresh leaf the fallback bootstrap obtains. -/
def freshCert : Certificate :=
  { certPEM := "cert-pem-3", keyPEM := "key-pem-3"
    validBefore := 2000 * second, modifyIndex := 102 }

/-- The fresh response the fallback bootstrap obtains. -/
def freshResponse : AutoConfigResponse :=
  { config := { primaryDatacenter := "primary", verifyServerHostname := true }
    caRoots := { activeRootID := "root-2"
                 trustDomain := "11111111-2222-3333-4444-555555555555.consul"
                 rootPEMs := ["root-pem-2", "root-pem-1"], index := 101 }
    certificate := freshCert
    extraCACertificates := ["extra-pem-1"] }

/-- The single address the `FindLocalServer` hint returns in the fallback
scenario. -/
def hintAddr : Addr := ⟨"198.18.23.2", 8300⟩

/-- The fallback scenario's RPC outcomes: the hint address answers with
the fresh response. -/
def fallbackRPC (a : Addr) : Option AutoConfigResponse :=
  if a = hintAddr then some freshResponse else none

/-- Every address a pass attempts comes from the declared list, in
declared order: the attempted addresses form an initial segment of the
list. -/
theorem runPass_attempts_ordered (rpc : Addr → Option AutoConfigResponse) :
    ∀ addrs : List Addr, (runPass rpc addrs).1 <+: addrs := by
  intro addrs
  induction addrs with
  | nil => simp [runPass]
  | cons a rest ih =>
    cases hr : rpc a with
    | some r => exact ⟨rest, by simp [runPass, hr]⟩
    | none =>
      obtain ⟨t, ht⟩ := ih
      exact ⟨t, by simp [runPass, hr, ht]⟩

/-- A pass over addresses that all fail attempts every address and
produces no response. -/
theorem runPass_all_fail (rpc : Addr → Option AutoConfigResponse)
    (addrs : List Addr) (h : ∀ a ∈ addrs, rpc a = none) :
    runPass rpc addrs = (addrs, none) := by
  induction addrs with
  | nil => simp [runPass]
  | cons a rest ih =>
    have ha : rpc a = none := h a (List.mem_cons_self a rest)
    have hrest := ih fun a ha' => h a (List.mem_cons_of_mem _ ha')
    simp [runPass, ha, hrest]

/-- When every configured address is unreachable on every pass, the
bootstrap loop never succeeds. -/
theorem bootstrapLoop_all_fail (rpc : Nat → Addr → Option AutoConfigResponse)
    (addrs : List Addr) (h : ∀ p, ∀ a ∈ addrs, rpc p a = none) :
    ∀ fuel pass, (bootstrapLoop rpc addrs fuel pass).2 = none := by
  intro fuel
  induction fuel with
  | zero => intro pass; simp [bootstrapLoop]
  | succ n ih =>
    intro pass
    simp [bootstrapLoop, runPass_all_fail (rpc pass) addrs (h pass), ih]

/-- The bootstrap loop of a fully unreachable address set returns the
context error. -/
theorem bootstrap_all_fail (deadline : Nat)
    (rpc : Nat → Addr → Option AutoConfigResponse) (addrs : List Addr)
    (h : ∀ p, ∀ a ∈ addrs, rpc p a = none) :
    (bootstrap deadline rpc addrs).2 = none :=
  bootstrapLoop_all_fail rpc addrs h deadline 0

/-- In every reachable state the done channel is closed exactly when the
loop is not running. -/
theorem reachable_done_iff (s : LoopState) (h : Reachable s) :
    (s.doneClosed = true ↔ s.running = false) := by
  induction h with
  | init => simp [initState]
  | loadResponse r s hs ih =>
    unfold loadResponse
    split <;> simpa using ih
  | start env tok now cna s s' hs heq ih =>
    unfold start at heq
    split at heq
    · exact absurd heq (by simp)
    · cases heq
      simp
  | stop s hs ih =>
    unfold stop
    split
    · simp
    · exact ih
  | parentCancelled s hs ih =>
    unfold parentCancelled stop
    split
    · simp
    · exact ih
  | tokenChanged tok s hs ih =>
    unfold handleTokenChanged
    split <;> simpa using ih
  | leafUpdate env now cert s hs ih =>
    unfold handleLeafUpdate
    split
    · split <;> simpa using ih
    · simpa using ih
  | rootsUpdate env now roots s hs ih =>
    unfold handleRootsUpdate
    split
    · split <;> simpa using ih
    · simpa using ih
  | fallback env now expired hint rpc retryAt tok s hs ih =>
    unfold handleFallback
    split
    · split <;> simpa using ih
    · simpa using ih

/-- In every reachable state the active leaf subscription's request token
is the token-store value read at its setup. -/
theorem reachable_leaf_token (s : LoopState) (h : Reachable s) :
    ∀ l, s.leafSub = some l → l.token = s.lastTokenRead := by
  induction h with
  | init => simp [initState]
  | loadResponse r s hs ih =>
    unfold loadResponse
    split <;> simpa using ih
  | start env tok now cna s s' hs heq ih =>
    unfold start at heq
    split at heq
    · exact absurd heq (by simp)
    · cases heq
      intro l hl
      cases hl
      rfl
  | stop s hs ih =>
    unfold stop
    split
    · simp
    · simpa using ih
  | parentCancelled s hs ih =>
    unfold parentCancelled stop
    split
    · simp
    · simpa using ih
  | tokenChanged tok s hs ih =>
    unfold handleTokenChanged
    split
    · intro l hl
      cases hl
      rfl
    · simpa using ih
  | leafUpdate env now cert s hs ih =>
    unfold handleLeafUpdate
    split
    · split
      · simpa using ih
      · simpa using ih
    · simpa using ih
  | rootsUpdate env now roots s hs ih =>
    unfold handleRootsUpdate
    split
    · split
      · simpa using ih
      · simpa using ih
    · simpa using ih
  | fallback env now expired hint rpc retryAt tok s hs ih =>
    unfold handleFallback
    split
    · split <;>
        first
          | (intro l hl
             simp only [Option.some.injEq] at hl
             subst hl
             rfl)
          | simpa using ih
    · simpa using ih

end AutoConf

/-- C1: every pass of the bootstrap client attempts the declared addresses
in declared order (the attempted addresses of a pass form an initial
segment of the declared list); and in the retries scenario — first three
addresses failing on every attempt, `127.0.0.1:1234` failing once then
succeeding — the loop walks the list exactly twice, succeeds on the
second pass, returns the assembled response and persists it. -/
theorem initialConfiguration_retries :
    (∀ (rpc : AutoConf.Addr → Option AutoConf.AutoConfigResponse)
        (addrs : List AutoConf.Addr), (AutoConf.runPass rpc addrs).1 <+: addrs) ∧
      AutoConf.bootstrap 10 AutoConf.retryScript AutoConf.retryAddrs =
        (AutoConf.retryAddrs ++ AutoConf.retryAddrs,
          some (1, AutoConf.sampleResponse)) ∧
      (AutoConf.initialConfiguration AutoConf.retryEnv none).result =
        Except.ok { primaryDatacenter := "primary", verifyServerHostname := true } ∧
      (AutoConf.initialConfiguration AutoConf.retryEnv none).rpcTrace =
        AutoConf.retryAddrs ++ AutoConf.retryAddrs ∧
      (AutoConf.initialConfiguration AutoConf.retryEnv none).file =
        some AutoConf.sampleResponse := by
  exact ⟨AutoConf.runPass_attempts_ordered, by decide, by rfl, by decide, by rfl⟩

/-- C2: with auto-config enabled and a valid response persisted, the
restored response is assembled and returned — its `PrimaryDatacenter` in
particular — without any RPC being issued, and the persisted file is left
as it was. -/
theorem initialConfiguration_restored (env : AutoConf.ICEnv)
    (r : AutoConf.AutoConfigResponse) (h : env.enabled = true) :
    (AutoConf.initialConfiguration env (some r)).result =
        Except.ok { primaryDatacenter := r.config.primaryDatacenter
                    verifyServerHostname := r.config.verifyServerHostname } ∧
      (AutoConf.initialConfiguration env (some r)).rpcTrace = [] ∧
      (AutoConf.initialConfiguration env (some r)).file = some r := by
  simp [AutoConf.initialConfiguration, h, AutoConf.assemble]

/-- Witness for C2: restoring the sample response with
`PrimaryDacenter="primary"` in a live environment returns it without an
RPC. -/
theorem initialConfiguration_restored_witness :
    (AutoConf.initialConfiguration AutoConf.retryEnv
        (some AutoConf.sampleResponse)).result =
        Except.ok { primaryDatacenter := AutoConf.sampleResponse.config.primaryDatacenter
                    verifyServerHostname := AutoConf.sampleResponse.config.verifyServerHostname } ∧
      (AutoConf.initialConfiguration AutoConf.retryEnv
        (some AutoConf.sampleResponse)).rpcTrace = [] ∧
      (AutoConf.initialConfiguration AutoConf.retryEnv
        (some AutoConf.sampleResponse)).file = some AutoConf.sampleResponse :=
  initialConfiguration_restored AutoConf.retryEnv AutoConf.sampleResponse rfl

/-- C6: with auto-config enabled and every configured address unreachable
on every pass, `InitialConfiguration` returns no configuration but the
context error — whose message contains "deadline exceeded" — and creates
no persistence file. -/
theorem initialConfiguration_cancelled (env : AutoConf.ICEnv)
    (he : env.enabled = true)
    (hfail : ∀ p, ∀ a ∈ env.serverAddresses, env.rpc p a = none) :
    (AutoConf.initialConfiguration env none).result =
        Except.error AutoConf.ICError.deadlineExceeded ∧
      "deadline exceeded".toList <:+:
        (AutoConf.ICError.message AutoConf.ICError.deadlineExceeded).toList ∧
      (AutoConf.initialConfiguration env none).file = none := by
  have hout := AutoConf.bootstrap_all_fail env.deadline env.rpc
    env.serverAddresses hfail
  rcases hb : AutoConf.bootstrap env.deadline env.rpc env.serverAddresses
    with ⟨trace, out⟩
  rw [hb] at hout
  simp only at hout
  subst hout
  refine ⟨?_, by decide, ?_⟩ <;>
    simp [AutoConf.initialConfiguration, he, hb]

/-- Witness for C6: the cancellation scenario's environment (one
unreachable address) yields the deadline-exceeded error and no file. -/
theorem initialConfiguration_cancelled_witness :
    (AutoConf.initialConfiguration AutoConf.cancelEnv none).result =
        Except.error AutoConf.ICError.deadlineExceeded ∧
      "deadline exceeded".toList <:+:
        (AutoConf.ICError.message AutoConf.ICError.deadlineExceeded).toList ∧
      (AutoConf.initialConfiguration AutoConf.cancelEnv none).file = none :=
  initialConfiguration_cancelled AutoConf.cancelEnv rfl (fun _ _ _ => rfl)

/-- C7: with `auto_config.enabled` false, `InitialConfiguration` returns
the loader's configuration alone, issues no RPC and leaves the
persistence file untouched. -/
theorem initialConfiguration_disabled (env : AutoConf.ICEnv)
    (file : Option AutoConf.AutoConfigResponse) (h : env.enabled = false) :
    (AutoConf.initialConfiguration env file).result =
        Except.ok env.loaderConfig ∧
      (AutoConf.initialConfiguration env file).rpcTrace = [] ∧
      (AutoConf.initialConfiguration env file).file = file := by
  simp [AutoConf.initialConfiguration, h]

/-- Witness for C7: the disabled scenario's environment returns the
loader's `primary_datacenter = "primary"` and creates no file. -/
theorem initialConfiguration_disabled_witness :
    (AutoConf.initialConfiguration AutoConf.disabledEnv none).result =
        Except.ok AutoConf.disabledEnv.loaderConfig ∧
      (AutoConf.initialConfiguration AutoConf.disabledEnv none).rpcTrace = [] ∧
      (AutoConf.initialConfiguration AutoConf.disabledEnv none).file = none :=
  initialConfiguration_disabled AutoConf.disabledEnv none rfl

/-- C3: a leaf update carrying an expired certificate is installed (one
`UpdateAutoTLS` with the full triple), persisted and the timer
recomputed; then, on the fallback tick with the TLS configurator
reporting expiry, the loop issues the bootstrap RPC to the single
`FindLocalServer` hint address, installs the fresh roots/leaf/extra-CA
triple, persists the new response and re-arms the fallback timer from
the new certificate's `ValidBefore`
(`min(ValidBefore − leeway, now + fallbackRetry)`). -/
theorem fallback_spec :
    (∀ (env : AutoConf.LoopEnv) (now : Int) (cert : AutoConf.Certificate)
        (s : AutoConf.LoopState) (resp : AutoConf.AutoConfigResponse),
        s.running = true → s.curResponse = some resp →
        (AutoConf.handleLeafUpdate env now cert s).2 =
          [AutoConf.installAction { resp with certificate := cert },
            AutoConf.Action.persist { resp with certificate := cert },
            AutoConf.Action.armTimer
              (AutoConf.fallbackTimer env now cert.validBefore)]) ∧
    (∀ (env : AutoConf.LoopEnv) (now : Int) (a : AutoConf.Addr)
        (rpc : AutoConf.Addr → Option AutoConf.AutoConfigResponse)
        (retryAt : Int) (tok : String) (s : AutoConf.LoopState)
        (resp2 : AutoConf.AutoConfigResponse),
        s.running = true → rpc a = some resp2 →
        (AutoConf.handleFallback env now true (some a) rpc retryAt tok s).2 =
          [AutoConf.Action.rpcTo a, AutoConf.installAction resp2,
            AutoConf.Action.persist resp2, AutoConf.Action.restartWatches,
            AutoConf.Action.armTimer
              (AutoConf.fallbackTimer env now resp2.certificate.validBefore)] ∧
        (AutoConf.handleFallback env now true (some a) rpc retryAt tok s).1.timer =
          some (AutoConf.fallbackTimer env now resp2.certificate.validBefore) ∧
        (AutoConf.handleFallback env now true (some a) rpc retryAt tok s).1.curResponse =
          some resp2) := by
  constructor
  · intro env now cert s resp hrun hresp
    simp [AutoConf.handleLeafUpdate, hrun, hresp]
  · intro env now a rpc retryAt tok s resp2 hrun hrpc
    simp [AutoConf.handleFallback, hrun, AutoConf.hintAddrs,
      AutoConf.runPass, hrpc]

/-- Witness for C3: in the started state holding the sample response, the
expired-leaf update installs and persists the expired leaf, and the
fallback tick against the hint address `198.18.23.2:8300` installs,
persists and re-times from the fresh response. -/
theorem fallback_spec_witness :
    ((AutoConf.handleLeafUpdate AutoConf.sampleLoopEnv 0 AutoConf.expiredCert
        AutoConf.fallbackState).2 =
      [AutoConf.installAction
          { AutoConf.sampleResponse with certificate := AutoConf.expiredCert },
        AutoConf.Action.persist
          { AutoConf.sampleResponse with certificate := AutoConf.expiredCert },
        AutoConf.Action.armTimer
          (AutoConf.fallbackTimer AutoConf.sampleLoopEnv 0
            AutoConf.expiredCert.validBefore)]) ∧
      ((AutoConf.handleFallback AutoConf.sampleLoopEnv 0 true
          (some AutoConf.hintAddr) AutoConf.fallbackRPC 5 "a5de"
          AutoConf.fallbackState).2 =
        [AutoConf.Action.rpcTo AutoConf.hintAddr,
          AutoConf.installAction AutoConf.freshResponse,
          AutoConf.Action.persist AutoConf.freshResponse,
          AutoConf.Action.restartWatches,
          AutoConf.Action.armTimer
            (AutoConf.fallbackTimer AutoConf.sampleLoopEnv 0
              AutoConf.freshResponse.certificate.validBefore)] ∧
        (AutoConf.handleFallback AutoConf.sampleLoopEnv 0 true
          (some AutoConf.hintAddr) AutoConf.fallbackRPC 5 "a5de"
          AutoConf.fallbackState).1.timer =
          some (AutoConf.fallbackTimer AutoConf.sampleLoopEnv 0
            AutoConf.freshResponse.certificate.validBefore) ∧
        (AutoConf.handleFallback AutoConf.sampleLoopEnv 0 true
          (some AutoConf.hintAddr) AutoConf.fallbackRPC 5 "a5de"
          AutoConf.fallbackState).1.curResponse =
          some AutoConf.freshResponse) :=
  ⟨fallback_spec.1 AutoConf.sampleLoopEnv 0 AutoConf.expiredCert
      AutoConf.fallbackState AutoConf.sampleResponse rfl rfl,
    fallback_spec.2 AutoConf.sampleLoopEnv 0 AutoConf.hintAddr
      AutoConf.fallbackRPC 5 "a5de" AutoConf.fallbackState
      AutoConf.freshResponse rfl rfl⟩

/-- C4: the agent-token change notification on a running loop cancels the
old leaf subscription's context and starts exactly one new leaf
subscription whose request carries the freshly read token, leaving the
roots subscription untouched; and in every reachable state the active
leaf subscription's request token equals the last value `AgentToken()`
returned at setup time. -/
theorem tokenUpdate_spec :
    (∀ (tok : String) (s : AutoConf.LoopState) (l : AutoConf.Subscription),
        s.running = true → s.leafSub = some l →
        (AutoConf.handleTokenChanged tok s).rootsSub = s.rootsSub ∧
        (AutoConf.handleTokenChanged tok s).leafSub =
          some { id := s.nextID, token := tok, cancelled := false } ∧
        { l with cancelled := true } ∈
          (AutoConf.handleTokenChanged tok s).cancelledSubs) ∧
    (∀ s : AutoConf.LoopState, AutoConf.Reachable s →
      ∀ l, s.leafSub = some l → l.token = s.lastTokenRead) := by
  constructor
  · intro tok s l hrun hl
    simp [AutoConf.handleTokenChanged, hrun, hl]
  · exact AutoConf.reachable_leaf_token

/-- Witness for C4: in the started state (leaf token `"a5de"`), the token
change to `"1a4c"` keeps the roots subscription, installs the single new
leaf subscription with token `"1a4c"` and cancels the old one; and the
started state — reachable by `Start` from the initial state — satisfies
the token-keyed-leaf invariant. -/
theorem tokenUpdate_spec_witness :
    ((AutoConf.handleTokenChanged "1a4c" AutoConf.sampleStarted).rootsSub =
        AutoConf.sampleStarted.rootsSub ∧
      (AutoConf.handleTokenChanged "1a4c" AutoConf.sampleStarted).leafSub =
        some { id := AutoConf.sampleStarted.nextID, token := "1a4c"
               cancelled := false } ∧
      { id := 1, token := "a5de", cancelled := true } ∈
        (AutoConf.handleTokenChanged "1a4c" AutoConf.sampleStarted).cancelledSubs) ∧
      AutoConf.Subscription.token { id := 1, token := "a5de", cancelled := false } =
        AutoConf.sampleStarted.lastTokenRead :=
  ⟨tokenUpdate_spec.1 "1a4c" AutoConf.sampleStarted
      { id := 1, token := "a5de", cancelled := false } rfl rfl,
    tokenUpdate_spec.2 AutoConf.sampleStarted
      (AutoConf.Reachable.start AutoConf.sampleLoopEnv "a5de" 0 (1000 * AutoConf.second)
        AutoConf.initState AutoConf.sampleStarted AutoConf.Reachable.init rfl)
      { id := 1, token := "a5de", cancelled := false } rfl⟩

/-- C5: `Stop()` on a running core returns `true`, cancels the contexts
of both the roots and the leaf subscription and closes the done channel;
`Stop()` on a stopped core returns `false` without side effects; the
initial done channel is closed; and in every reachable state the done
channel is closed exactly when the loop is not running. -/
theorem stop_spec :
    (∀ (s : AutoConf.LoopState) (r l : AutoConf.Subscription),
        s.running = true → s.rootsSub = some r → s.leafSub = some l →
        (AutoConf.stop s).1 = true ∧
        (AutoConf.stop s).2.running = false ∧
        (AutoConf.stop s).2.doneClosed = true ∧
        { r with cancelled := true } ∈ (AutoConf.stop s).2.cancelledSubs ∧
        { l with cancelled := true } ∈ (AutoConf.stop s).2.cancelledSubs) ∧
    (∀ s : AutoConf.LoopState, s.running = false →
      AutoConf.stop s = (false, s)) ∧
    AutoConf.initState.doneClosed = true ∧
    (∀ s : AutoConf.LoopState, AutoConf.Reachable s →
      (s.doneClosed = true ↔ s.running = false)) := by
  refine ⟨?_, ?_, rfl, AutoConf.reachable_done_iff⟩
  · intro s r l hrun hr hl
    simp [AutoConf.stop, AutoConf.cancelActive, hrun, hr, hl]
  · intro s hrun
    simp [AutoConf.stop, hrun]

/-- Witness for C5: stopping the started state cancels both subscription
contexts and closes the done channel; stopping the initial state returns
`false` unchanged; and the reachable initial state has its done channel
closed with the loop not running. -/
theorem stop_spec_witness :
    ((AutoConf.stop AutoConf.sampleStarted).1 = true ∧
      (AutoConf.stop AutoConf.sampleStarted).2.running = false ∧
      (AutoConf.stop AutoConf.sampleStarted).2.doneClosed = true ∧
      { id := 0, token := "", cancelled := true } ∈
        (AutoConf.stop AutoConf.sampleStarted).2.cancelledSubs ∧
      { id := 1, token := "a5de", cancelled := true } ∈
        (AutoConf.stop AutoConf.sampleStarted).2.cancelledSubs) ∧
      AutoConf.stop AutoConf.initState = (false, AutoConf.initState) ∧
      (AutoConf.initState.doneClosed = true ↔ AutoConf.initState.running = false) :=
  ⟨stop_spec.1 AutoConf.sampleStarted { id := 0, token := "", cancelled := false }
      { id := 1, token := "a5de", cancelled := false } rfl rfl rfl,
    stop_spec.2.1 AutoConf.initState rfl,
    stop_spec.2.2.2 AutoConf.initState AutoConf.Reachable.init⟩

/-- C8: `New` returns an error exactly when one of the required
collaborators (direct RPC delegate, config loader, cache, TLS
configurator, token store) is absent; with all present and the tunables
unset, it succeeds and the core carries `FallbackRetry` of one minute,
`FallbackLeeway` of ten seconds and a present retry waiter. -/
theorem new_spec (cfg : AutoConf.Config) :
    ((∃ e, AutoConf.New cfg = Except.error e) ↔
      (cfg.directRPC = false ∨ cfg.loader = false ∨ cfg.cache = false ∨
        cfg.tlsConfigurator = false ∨ cfg.tokens = false)) ∧
    (cfg.directRPC = true → cfg.loader = true → cfg.cache = true →
      cfg.tlsConfigurator = true → cfg.tokens = true →
      cfg.fallbackRetry = 0 → cfg.fallbackLeeway = 0 →
      ∃ ac, AutoConf.New cfg = Except.ok ac ∧
        ac.acConfig.fallbackRetry = AutoConf.minute ∧
        ac.acConfig.fallbackLeeway = 10 * AutoConf.second ∧
        ac.acConfig.waiter.isSome = true) := by
  obtain ⟨d, l, c, t, k, s, w, fr, fl⟩ := cfg
  cases d <;> cases l <;> cases c <;> cases t <;> cases k <;>
    simp [AutoConf.New]
  omega

/-- Witness for C8: the fully-populated configuration yields a core with
the default tunables, and removing the direct RPC delegate yields an
error. -/
theorem new_spec_witness :
    (∃ ac, AutoConf.New AutoConf.fullConfig = Except.ok ac ∧
        ac.acConfig.fallbackRetry = AutoConf.minute ∧
        ac.acConfig.fallbackLeeway = 10 * AutoConf.second ∧
        ac.acConfig.waiter.isSome = true) ∧
      (∃ e, AutoConf.New { AutoConf.fullConfig with directRPC := false } =
        Except.error e) :=
  ⟨(new_spec AutoConf.fullConfig).2 rfl rfl rfl rfl rfl rfl rfl,
    ((new_spec { AutoConf.fullConfig with directRPC := false }).1).2
      (Or.inl rfl)⟩

/-- C9: `ParseRelayFactor n` returns an error exactly when `n < 0` or
`n > 5`, and otherwise returns `n` itself (the `uint8` conversion is the
identity on the accepted range). -/
theorem parseRelayFactor_spec (n : Int) :
    ((∃ e, Keyring.ParseRelayFactor n = Except.error e) ↔ (n < 0 ∨ n > 5)) ∧
      (¬(n < 0 ∨ n > 5) → Keyring.ParseRelayFactor n = Except.ok n) := by
  unfold Keyring.ParseRelayFactor
  by_cases h : n < 0 ∨ n > 5
  · simp [h]
  · have hn : n % 256 = n := by omega
    simp [h, hn]

/-- Witness for C9: at `n = 3` no error is returned and the value `3` comes
back unchanged. -/
theorem parseRelayFactor_spec_witness :
    Keyring.ParseRelayFactor 3 = Except.ok 3 :=
  (parseRelayFactor_spec 3).2 (by omega)

/-- C10: `ValidateLocalOnly local list` returns an error exactly when
`local` is true and `list` is false, and `none` in every other case. -/
theorem validateLocalOnly_spec (l list : Bool) :
    (Keyring.ValidateLocalOnly l list ≠ none ↔ (l = true ∧ list = false)) ∧
      (¬(l = true ∧ list = false) → Keyring.ValidateLocalOnly l list = none) := by
  cases l <;> cases list <;> simp [Keyring.ValidateLocalOnly]

/-- Witness for C10: at `local = true, list = false` an error is returned,
and at `local = true, list = true` none is. -/
theorem validateLocalOnly_spec_witness :
    Keyring.ValidateLocalOnly true false ≠ none ∧
      Keyring.ValidateLocalOnly true true = none :=
  ⟨((validateLocalOnly_spec true false).1).2 ⟨rfl, rfl⟩,
    (validateLocalOnly_spec true true).2 (by simp)⟩
